import Mathlib

/-!
Shallow embedding of `src/main.py` (GNSSAnalyzer, japan-gnss-analysis).

Modelling conventions:
  * Python floats are modelled as exact rationals (`ℚ`); the float `%`
    operator with a positive modulus is `x - m * ⌊x / m⌋`.
  * The observable behaviour of a method is its trace of effects
    (prints, sleeps, file saves) plus the updated analyzer state.
  * A dynamically absent attribute (never assigned) and an attribute set
    to Python `None` are both `Option.none`; reading one where Python
    would raise (AttributeError / TypeError / KeyError / IndexError)
    returns `Except.error` with a `PyError`.
  * `pandas.read_csv` over the network and `requests.get` are external:
    their outcome is an input (`FetchResult` / `UsgsOutcome`) to the
    function embedding the method body.
  * Date parsing (`pd.to_datetime` + `strftime`) is abstracted to taking
    the min/max of the raw date strings: no claim under verification
    depends on calendar semantics, only on whether `start_date` /
    `end_date` were assigned.
  * Matplotlib / plotly / folium rendering calls are abstracted to the
    structured data handed to them (`MapElement`) and the files written;
    the numeric endpoint arithmetic of `_add_vector_antpath` (which uses
    a cosine) is kept as the recorded inputs `(de, dn, scale)`.
-/

namespace GNSS

/-- One parsed row of the `.tenv3` file (the columns `load_data` uses). -/
structure Record where
  station : String
  date : String
  t : ℚ
  e_frac : ℚ
  n_frac : ℚ
  u_frac : ℚ
  se : ℚ
  sn : ℚ
  su : ℚ
  lat : ℚ
  lon : ℚ
  deriving DecidableEq

/-- One GeoJSON feature from the USGS earthquake query, with the fields
`generate_displacement_map` reads (`properties.mag`, `properties.place`,
`properties.time`, `geometry.coordinates`). -/
structure Quake where
  mag : ℚ
  place : String
  time : ℚ
  coordinates : List ℚ
  deriving DecidableEq

/-- Observable side effects of a method body. -/
inductive Effect where
  | print (s : String)
  | sleep (seconds : ℚ)
  | savePng (file : String)
  | saveHtml (file : String)
  deriving DecidableEq

/-- Python exceptions that can escape the embedded method bodies. -/
inductive PyError where
  | attributeError (s : String)
  | keyError (s : String)
  | typeError (s : String)
  | indexError
  deriving DecidableEq

/-- The state of a `GNSSAnalyzer` instance.  Fields assigned only inside
`load_data` (`e`, `n`, `u`, `se`, `sn`, `su`, `start_date`, `end_date`)
start as `none` = attribute absent; `t`/`df_enu` start as Python `None`. -/
structure GNSSAnalyzer where
  code : String
  df_enu : Option (List Record)
  t : Option (List ℚ)
  e : Option (List ℚ)
  n : Option (List ℚ)
  u : Option (List ℚ)
  se : Option (List ℚ)
  sn : Option (List ℚ)
  su : Option (List ℚ)
  coords : List (String × ℚ)
  earthquakes : List Quake
  start_date : Option String
  end_date : Option String
  deriving DecidableEq

/-- Constructor `GNSSAnalyzer.__init__`. -/
def GNSSAnalyzer.init (station_code : String) : GNSSAnalyzer :=
  { code := station_code, df_enu := none, t := none, e := none, n := none,
    u := none, se := none, sn := none, su := none, coords := [],
    earthquakes := [], start_date := none, end_date := none }

/-- Reading a possibly-absent attribute: `AttributeError` when unset. -/
def getAttr {α : Type} (x : Option α) (nm : String) : Except PyError α :=
  match x with
  | some v => Except.ok v
  | none => Except.error (PyError.attributeError nm)

/-- Python dict subscript read: `KeyError` when the key is missing. -/
def dictGet (d : List (String × ℚ)) (k : String) : Except PyError ℚ :=
  match d.lookup k with
  | some v => Except.ok v
  | none => Except.error (PyError.keyError k)

/-- Python dict subscript assignment (replace if present, else append). -/
def dictInsert (k : String) (v : ℚ) : List (String × ℚ) → List (String × ℚ)
  | [] => [(k, v)]
  | (k', v') :: rest =>
      if k' = k then (k, v) :: rest else (k', v') :: dictInsert k v rest

/-- The longitude fix on line 64 of the source:
`(lon_raw + 180) % 360 - 180`, with Python float `%` for the positive
modulus `360` being `x - 360 * floor (x / 360)`. -/
def fixLongitude (lon_raw : ℚ) : ℚ :=
  ((lon_raw + 180) - 360 * ⌊(lon_raw + 180) / 360⌋) - 180

/-- Lexicographic order on character lists (by code point), used to take
the min/max of the date strings. -/
def charListLe : List Char → List Char → Bool
  | [], _ => true
  | _ :: _, [] => false
  | c :: cs, d :: ds =>
      if c.toNat < d.toNat then true
      else if d.toNat < c.toNat then false
      else charListLe cs ds

/-- The earlier of two date strings (lexicographic on the raw text; the
abstraction of `pd.to_datetime(...).min()` noted in the header). -/
def dateMin (x y : String) : String := if charListLe x.data y.data then x else y

/-- The later of two date strings. -/
def dateMax (x y : String) : String := if charListLe x.data y.data then y else x

/-- Outcome of `pd.read_csv(url_enu, ...)`: either the parsed rows or a
network/parse exception message. -/
inductive FetchResult where
  | ok (records : List Record)
  | err (msg : String)
  deriving DecidableEq

/-- Method `GNSSAnalyzer.load_data`.  The whole body is inside `try/except`:
any failure (network, parse, or `values[0]` on an empty frame) is caught,
a `❌` line is printed, and the method returns normally with the state
unchanged.  On success every parsed row is stored unfiltered. -/
def load_data (fetch : FetchResult) (a : GNSSAnalyzer) :
    GNSSAnalyzer × List Effect :=
  let header := Effect.print ("📡 Fetching GNSS data for station " ++ a.code ++ "...")
  match fetch with
  | FetchResult.err msg =>
      (a, [header, Effect.print ("❌ Error loading data: " ++ msg)])
  | FetchResult.ok [] =>
      (a, [header, Effect.print "❌ Error loading data: index 0 is out of bounds for axis 0 with size 0"])
  | FetchResult.ok (r0 :: rs) =>
      let records := r0 :: rs
      let dates := records.map (fun r => r.date)
      let sd := dates.foldl dateMin r0.date
      let ed := dates.foldl dateMax r0.date
      let a' : GNSSAnalyzer :=
        { a with
          df_enu := some records
          t := some (records.map (fun r => r.t))
          e := some (records.map (fun r => r.e_frac))
          n := some (records.map (fun r => r.n_frac))
          u := some (records.map (fun r => r.u_frac))
          se := some (records.map (fun r => r.se))
          sn := some (records.map (fun r => r.sn))
          su := some (records.map (fun r => r.su))
          coords := dictInsert "lon" (fixLongitude r0.lon)
                      (dictInsert "lat" r0.lat a.coords)
          start_date := some sd
          end_date := some ed }
      (a', [header,
            Effect.print ("✅ Data loaded successfully. Records: " ++ toString records.length),
            Effect.print ("📅 Date Range: " ++ sd ++ " to " ++ ed)])

/-- Outcome of `requests.get` in `fetch_usgs_earthquakes`: a raised
exception, or a response with a status code and (when the body parses as
GeoJSON with a `features` key) the feature list; `features := none`
models a body whose parse / key access raises inside the `try`. -/
inductive UsgsOutcome where
  | exception (msg : String)
  | response (status : Nat) (features : Option (List Quake))
  deriving DecidableEq

/-- The feature list of a successful HTTP 200 response, `none` otherwise. -/
def successFeatures (o : UsgsOutcome) : Option (List Quake) :=
  match o with
  | UsgsOutcome.exception _ => none
  | UsgsOutcome.response status feats =>
      if status = 200 then feats else none

/-- The `try/except` block of `fetch_usgs_earthquakes`: `self.earthquakes`
is assigned only in the `status == 200` branch with a well-formed body;
a non-200 status, a body whose parse raises, or a raised connection
exception just print a `❌` line and leave the state as it was. -/
def usgsTryBlock (outcome : UsgsOutcome) (header : Effect) (a : GNSSAnalyzer) :
    GNSSAnalyzer × List Effect :=
  match outcome with
  | UsgsOutcome.exception msg =>
      (a, [header, Effect.print ("❌ Connection failed: " ++ msg)])
  | UsgsOutcome.response status feats =>
      if status = 200 then
        match feats with
        | some fs =>
            ({ a with earthquakes := fs },
              [header, Effect.print ("⚠️ Found " ++ toString fs.length ++
                " major seismic events nearby (USGS Data).")])
        | none =>
            (a, [header, Effect.print "❌ Connection failed: malformed response body"])
      else
        (a, [header, Effect.print ("❌ USGS API Error: " ++
          toString status ++ " - Check coordinates or date format.")])

/-- Method `GNSSAnalyzer.fetch_usgs_earthquakes`.  The `params` dict is built
before the `try`, so a missing `start_date`/`end_date` attribute or a
missing `coords` key raises an uncaught Python error; the network call
and the response handling live in `usgsTryBlock`, which never raises. -/
def fetch_usgs_earthquakes (outcome : UsgsOutcome) (min_magnitude radius_km : ℚ)
    (a : GNSSAnalyzer) : Except PyError (GNSSAnalyzer × List Effect) :=
  let header := Effect.print ("🌍 Querying USGS API for earthquakes > M" ++
    toString min_magnitude ++ " within " ++ toString radius_km ++ "km...")
  match getAttr a.start_date "start_date" with
  | Except.error er => Except.error er
  | Except.ok _sd =>
    match getAttr a.end_date "end_date" with
    | Except.error er => Except.error er
    | Except.ok _ed =>
      match dictGet a.coords "lat" with
      | Except.error er => Except.error er
      | Except.ok _lat =>
        match dictGet a.coords "lon" with
        | Except.error er => Except.error er
        | Except.ok _lon => Except.ok (usgsTryBlock outcome header a)

/-- Method `GNSSAnalyzer.plot_time_series_static`: reads `self.e`, `self.n`,
`self.u` (AttributeError if `load_data` never succeeded) and plots
against `self.t` (TypeError if still `None`), then saves the PNG. -/
def plot_time_series_static (a : GNSSAnalyzer) : Except PyError (List Effect) :=
  match getAttr a.e "e" with
  | Except.error er => Except.error er
  | Except.ok _ =>
    match getAttr a.n "n" with
    | Except.error er => Except.error er
    | Except.ok _ =>
      match getAttr a.u "u" with
      | Except.error er => Except.error er
      | Except.ok _ =>
        match a.t with
        | none => Except.error (PyError.typeError "t")
        | some _ =>
            Except.ok [Effect.print "📊 Generating Static Plot (PNG)...",
              Effect.savePng "j299_analysis_plot.png",
              Effect.print "💾 Static plot saved as j299_analysis_plot.png"]

/-- Method `GNSSAnalyzer.generate_interactive_dashboard`: same data accesses,
writes the plotly HTML file. -/
def generate_interactive_dashboard (a : GNSSAnalyzer) : Except PyError (List Effect) :=
  match a.t with
  | none => Except.error (PyError.typeError "t")
  | some _ =>
    match getAttr a.e "e" with
    | Except.error er => Except.error er
    | Except.ok _ =>
      match getAttr a.n "n" with
      | Except.error er => Except.error er
      | Except.ok _ =>
        match getAttr a.u "u" with
        | Except.error er => Except.error er
        | Except.ok _ =>
            Except.ok [Effect.print "📈 Generating Interactive Dashboard (HTML)...",
              Effect.saveHtml ("time_series_dashboard_" ++ a.code ++ ".html"),
              Effect.print ("✅ Dashboard saved to time_series_dashboard_" ++ a.code ++ ".html")]

/-- An element added to the folium map by `generate_displacement_map`.
`antPath` records the inputs handed to `_add_vector_antpath` (the
endpoint arithmetic uses a cosine and is not inspected by any claim). -/
inductive MapElement where
  | baseMap (lat lon : ℚ)
  | circle (lat lon radius : ℚ) (color : String)
  | stationMarker (lat lon : ℚ) (code : String)
  | quakeMarker (lat lon radius : ℚ) (place : String) (mag : ℚ)
  | antPath (de dn scale : ℚ) (color : String) (label : String)
  deriving DecidableEq

/-- The per-earthquake loop body of `generate_displacement_map`: for each
feature, read `geometry.coordinates[1]` / `[0]` (IndexError when absent)
and add a red circle marker of radius `max((mag - 5) * 4, 3)`. -/
def quakeMarkers : List Quake → Except PyError (List MapElement)
  | [] => Except.ok []
  | q :: rest =>
      match q.coordinates.get? 1, q.coordinates.get? 0 with
      | some glat, some glon =>
          match quakeMarkers rest with
          | Except.ok ms =>
              Except.ok (MapElement.quakeMarker glat glon
                (max ((q.mag - 5) * 4) 3) q.place q.mag :: ms)
          | Except.error er => Except.error er
      | _, _ => Except.error PyError.indexError

/-- Method `GNSSAnalyzer.generate_displacement_map`.  Guard: `if not self.coords:
return` — an empty coords dict returns before any key access and before
any map is built or saved.  Otherwise the base map, two range rings, the
station marker, one marker per earthquake (skipped when the list is
empty) and the two animated vectors are added, then the HTML is saved. -/
def generate_displacement_map (a : GNSSAnalyzer) :
    Except PyError (Option (List MapElement) × List Effect) :=
  let header := Effect.print "🗺️ Generating geospatial visualization..."
  match a.coords with
  | [] => Except.ok (none, [header])
  | _ :: _ =>
    match dictGet a.coords "lat" with
    | Except.error er => Except.error er
    | Except.ok lat =>
      match dictGet a.coords "lon" with
      | Except.error er => Except.error er
      | Except.ok lon =>
        match quakeMarkers a.earthquakes with
        | Except.error er => Except.error er
        | Except.ok qms =>
            let elems := MapElement.baseMap lat lon
              :: MapElement.circle lat lon 500000 "orange"
              :: MapElement.circle lat lon 1000000 "red"
              :: MapElement.stationMarker lat lon a.code
              :: qms ++
              [MapElement.antPath 0.0466 (-0.0183) 20000000 "blue" "Secular Velocity (Tectonic)",
               MapElement.antPath 5.2 (-1.8) 500000 "red" "Co-Seismic Jump (Tohoku 2011)"]
            Except.ok (some elems,
              [header, Effect.saveHtml ("map_" ++ a.code ++ ".html"),
               Effect.print ("✅ Clean Political Map saved to map_" ++ a.code ++ ".html")])

/-- The iteration space of `run_optimization`'s loop: `range(10)`. -/
def optimizationGrid : List Nat := List.range 10

/-- Method `GNSSAnalyzer.run_optimization`: prints a banner, sleeps `0.1` s per
iteration of `range(10)` (via tqdm), prints the hard-coded answer.  The
analyzer state is never read and nothing is computed or assigned. -/
def run_optimization (_a : GNSSAnalyzer) : List Effect :=
  Effect.print "\n🧮 Running Grid Search Optimization for T_relax..."
    :: (optimizationGrid.map (fun _ => Effect.sleep 0.1)
        ++ [Effect.print "✅ Optimization Complete. Optimal T_relax: 320.2 days"])

/-- The trace `run_optimization` emits, as a closed value. -/
def optimizationTrace : List Effect :=
  Effect.print "\n🧮 Running Grid Search Optimization for T_relax..."
    :: ((List.range 10).map (fun _ => Effect.sleep 0.1)
        ++ [Effect.print "✅ Optimization Complete. Optimal T_relax: 320.2 days"])

def Effect.isSleep : Effect → Bool
  | Effect.sleep _ => true
  | _ => false

/-- Modelled from the spec: the grid the specification describes for the
relaxation time constant — "20 points linearly spaced over [10, 400]
days".  Present only to compare the spec's claimed grid with the loop
the source actually runs; no such grid exists in the source. -/
def spec_grid : List ℚ :=
  (List.range 20).map (fun i => 10 + (400 - 10) * (i : ℚ) / 19)

/-- The `__main__` block: construct the analyzer for station J299 and run
the six stages in order.  No stage is guarded: each is called whatever
the previous ones did, and only an uncaught Python error stops the run. -/
def main_flow (fetch : FetchResult) (usgs : UsgsOutcome) :
    Except PyError (GNSSAnalyzer × Option (List MapElement) × List Effect) :=
  let banner := Effect.print "--- ChainXY Technical Portfolio Demo ---"
  let a0 := GNSSAnalyzer.init "J299"
  let (a1, tr1) := load_data fetch a0
  match fetch_usgs_earthquakes usgs 7.0 1000 a1 with
  | Except.error er => Except.error er
  | Except.ok (a2, tr2) =>
    match plot_time_series_static a2 with
    | Except.error er => Except.error er
    | Except.ok tr3 =>
      match generate_interactive_dashboard a2 with
      | Except.error er => Except.error er
      | Except.ok tr4 =>
        let tr5 := run_optimization a2
        match generate_displacement_map a2 with
        | Except.error er => Except.error er
        | Except.ok (mp, tr6) =>
            Except.ok (a2, mp, banner :: (tr1 ++ tr2 ++ tr3 ++ tr4 ++ tr5 ++ tr6))

theorem lookup_dictInsert_self (k : String) (v : ℚ) (d : List (String × ℚ)) :
    (dictInsert k v d).lookup k = some v := by
  induction d with
  | nil => simp [dictInsert, List.lookup]
  | cons p rest ih =>
      rcases p with ⟨k', v'⟩
      by_cases h : k' = k
      · simp [dictInsert, h, List.lookup]
      · have hb : (k == k') = false := by
          simp only [beq_eq_false_iff_ne]
          exact Ne.symm h
        simp [dictInsert, h, List.lookup, hb, ih]

theorem fixLongitude_eq_fract (lon_raw : ℚ) :
    fixLongitude lon_raw = 360 * Int.fract ((lon_raw + 180) / 360) - 180 := by
  unfold fixLongitude
  rw [Int.fract]
  ring

theorem fixLongitude_bounds (lon_raw : ℚ) :
    -180 ≤ fixLongitude lon_raw ∧ fixLongitude lon_raw < 180 := by
  have h0 : (0 : ℚ) ≤ Int.fract ((lon_raw + 180) / 360) := Int.fract_nonneg _
  have h1 : Int.fract ((lon_raw + 180) / 360) < 1 := Int.fract_lt_one _
  rw [fixLongitude_eq_fract]
  constructor <;> nlinarith

theorem usgsTryBlock_state (outcome : UsgsOutcome) (header : Effect)
    (a : GNSSAnalyzer) (h : successFeatures outcome = none) :
    (usgsTryBlock outcome header a).1 = a := by
  cases outcome with
  | exception msg => rfl
  | response status feats =>
      by_cases hs : status = 200
      · subst hs
        cases feats with
        | none => rfl
        | some fs => simp [successFeatures] at h
      · cases feats with
        | none => simp [usgsTryBlock, hs]
        | some fs => simp [usgsTryBlock, hs]

/-- C1: for every analyzer state, `run_optimization` emits the same
fixed trace — one banner, ten sleeps, and one hard-coded result line
containing "Optimal T_relax: 320.2 days" — independent of the station
code, the loaded data and the earthquake list; it performs no fitting. -/
theorem run_optimization_prints_hardcoded_result (a : GNSSAnalyzer) :
    run_optimization a = optimizationTrace ∧
    Effect.print ("✅ Optimization Complete. " ++ "Optimal T_relax: 320.2 days")
      ∈ run_optimization a := by
  have hm : Effect.print ("✅ Optimization Complete. " ++ "Optimal T_relax: 320.2 days")
      ∈ optimizationTrace := by decide
  exact ⟨rfl, hm⟩

/-- C2: running the optimization twice on identical inputs yields a
bit-identical output: in fact the trace of `run_optimization` does not
depend on its input at all, so two runs on equal analyzer states are
equal (there is no tie-break to vary). -/
theorem run_optimization_deterministic (a1 a2 : GNSSAnalyzer) :
    run_optimization a1 = run_optimization a2 := rfl

/-- C3 counterexample: the loop `run_optimization` actually iterates has
10 points (`range(10)`), not the 20 linearly spaced candidate values
over [10, 400] days that the claim describes (`spec_grid`). -/
theorem optimization_grid_counterexample :
    optimizationGrid.length = 10 ∧ spec_grid.length = 20 ∧
    ((run_optimization (GNSSAnalyzer.init "J299")).filter Effect.isSleep).length
      ≠ spec_grid.length := by
  decide

/-- C3 amended: the optimization's loop iterates over the fixed index
range `range(10)` — 10 iterations, one sleep each — and no grid of
candidate T_relax values appears in the code at all. -/
theorem optimization_loop_is_fixed_range_ten (a : GNSSAnalyzer) :
    optimizationGrid = List.range 10 ∧
    ((run_optimization a).filter Effect.isSleep).length = optimizationGrid.length := by
  exact ⟨rfl, rfl⟩

/-- C4 counterexample: on a failing load ("connection refused"), `load_data`
returns normally with the state unchanged and only a printed `❌` line —
no `DataUnavailableError` (or any exception) reaches the caller — and the
`__main__` flow then proceeds to `fetch_usgs_earthquakes`, which crashes
with an uncaught `AttributeError` on the never-assigned `start_date`. -/
theorem load_failure_counterexample :
    (load_data (FetchResult.err "connection refused") (GNSSAnalyzer.init "J299")).1
      = GNSSAnalyzer.init "J299" ∧
    (load_data (FetchResult.err "connection refused") (GNSSAnalyzer.init "J299")).2
      = [Effect.print "📡 Fetching GNSS data for station J299...",
         Effect.print "❌ Error loading data: connection refused"] ∧
    main_flow (FetchResult.err "connection refused") (UsgsOutcome.response 200 (some []))
      = Except.error (PyError.attributeError "start_date") := by
  exact ⟨rfl, rfl, rfl⟩

/-- C4 amended: when the data load fails, `load_data` swallows the error
(prints "❌ Error loading data: <cause>" and returns with the analyzer
unchanged), and the caller does proceed to the next stage; the run then
stops only because `fetch_usgs_earthquakes` raises an uncaught
`AttributeError` on the unset `start_date`, not a `DataUnavailableError`. -/
theorem load_failure_swallowed_and_flow_continues (msg : String) (a : GNSSAnalyzer) :
    load_data (FetchResult.err msg) a =
      (a, [Effect.print ("📡 Fetching GNSS data for station " ++ a.code ++ "..."),
           Effect.print ("❌ Error loading data: " ++ msg)]) ∧
    ∀ usgs : UsgsOutcome, main_flow (FetchResult.err msg) usgs =
      Except.error (PyError.attributeError "start_date") := by
  exact ⟨rfl, fun _ => rfl⟩

/-- A parsed row whose east uncertainty `se` is zero (non-positive
sigma), used to exercise the ingestion filtering policy. -/
def row_sigma_zero : Record :=
  { station := "J299", date := "11MAR11", t := 2011.19, e_frac := 0.05,
    n_frac := 0.01, u_frac := 0.002, se := 0, sn := 0.001, su := 0.003,
    lat := 38.0, lon := 141.0 }

/-- C5 counterexample: loading a file whose single row has sigma `se = 0`
(non-positive) keeps the row: the stored uncertainty vector still holds
the `0`, the full frame is retained, and the printed trace reports only
the total record count — no dropped-row count and no drop occur. -/
theorem nonpositive_sigma_retained_counterexample :
    row_sigma_zero.se ≤ 0 ∧
    ((load_data (FetchResult.ok [row_sigma_zero]) (GNSSAnalyzer.init "J299")).1).se
      = some [0] ∧
    ((load_data (FetchResult.ok [row_sigma_zero]) (GNSSAnalyzer.init "J299")).1).df_enu
      = some [row_sigma_zero] ∧
    (load_data (FetchResult.ok [row_sigma_zero]) (GNSSAnalyzer.init "J299")).2
      = [Effect.print "📡 Fetching GNSS data for station J299...",
         Effect.print "✅ Data loaded successfully. Records: 1",
         Effect.print "📅 Date Range: 11MAR11 to 11MAR11"] := by
  refine ⟨le_refl 0, rfl, rfl, ?_⟩
  decide

/-- C5 amended: `load_data` performs no sample filtering at all — every
parsed row is stored unchanged whatever its value or sigma, and the
printed report contains only the total record count, never a count of
dropped rows. -/
theorem load_data_retains_every_row (r0 : Record) (rs : List Record) (a : GNSSAnalyzer) :
    ((load_data (FetchResult.ok (r0 :: rs)) a).1).se
      = some ((r0 :: rs).map (fun r => r.se)) ∧
    ((load_data (FetchResult.ok (r0 :: rs)) a).1).t
      = some ((r0 :: rs).map (fun r => r.t)) ∧
    ((load_data (FetchResult.ok (r0 :: rs)) a).1).df_enu = some (r0 :: rs) ∧
    (load_data (FetchResult.ok (r0 :: rs)) a).2
      = [Effect.print ("📡 Fetching GNSS data for station " ++ a.code ++ "..."),
         Effect.print ("✅ Data loaded successfully. Records: " ++
           toString (r0 :: rs).length),
         Effect.print ("📅 Date Range: " ++
           (((r0 :: rs).map (fun r => r.date)).foldl dateMin r0.date) ++ " to " ++
           (((r0 :: rs).map (fun r => r.date)).foldl dateMax r0.date))] := by
  exact ⟨rfl, rfl, rfl, rfl⟩

/-- C6 counterexample: on a freshly initialized analyzer — no data, no
events, nothing that could parameterize a grid — `run_optimization`
still succeeds, emitting its full 12-effect trace whose last line is the
hard-coded success message; it neither fails nor withholds its result. -/
theorem empty_analyzer_optimization_succeeds :
    (run_optimization (GNSSAnalyzer.init "J299")).getLast?
      = some (Effect.print "✅ Optimization Complete. Optimal T_relax: 320.2 days") ∧
    (run_optimization (GNSSAnalyzer.init "J299")).length = 12 := by
  decide

/-- C6 amended: `run_optimization` takes no grid and has no failure
path: for every analyzer state it emits the same fixed trace ending in
the hard-coded success line — the empty-grid failure and the
size-1-grid behaviour the claim describes do not exist in the code. -/
theorem run_optimization_has_no_failure_path (a : GNSSAnalyzer) :
    (run_optimization a).getLast?
      = some (Effect.print "✅ Optimization Complete. Optimal T_relax: 320.2 days") ∧
    run_optimization a = run_optimization (GNSSAnalyzer.init "J299") := by
  have h1 : optimizationTrace.getLast?
      = some (Effect.print "✅ Optimization Complete. Optimal T_relax: 320.2 days") := by
    decide
  exact ⟨h1, rfl⟩

/-- C7: an HTTP 200 response with an empty feature list is recorded as
`earthquakes = []` with a "Found 0" report and no error line, and
`generate_displacement_map` then renders the map without failure and
without any earthquake marker. -/
theorem empty_event_result_is_valid (a : GNSSAnalyzer) (sd ed : String) (lat lon : ℚ) :
    fetch_usgs_earthquakes (UsgsOutcome.response 200 (some [])) 7.0 1000
        { a with start_date := some sd, end_date := some ed,
                 coords := [("lat", lat), ("lon", lon)] }
      = Except.ok
          ({ a with start_date := some sd, end_date := some ed,
                    coords := [("lat", lat), ("lon", lon)], earthquakes := [] },
           [Effect.print ("🌍 Querying USGS API for earthquakes > M" ++
              toString (7.0 : ℚ) ++ " within " ++ toString (1000 : ℚ) ++ "km..."),
            Effect.print ("⚠️ Found " ++ toString (List.length ([] : List Quake)) ++
              " major seismic events nearby (USGS Data).")]) ∧
    generate_displacement_map
        { a with start_date := some sd, end_date := some ed,
                 coords := [("lat", lat), ("lon", lon)], earthquakes := [] }
      = Except.ok
          (some [MapElement.baseMap lat lon,
                 MapElement.circle lat lon 500000 "orange",
                 MapElement.circle lat lon 1000000 "red",
                 MapElement.stationMarker lat lon a.code,
                 MapElement.antPath 0.0466 (-0.0183) 20000000 "blue"
                   "Secular Velocity (Tectonic)",
                 MapElement.antPath 5.2 (-1.8) 500000 "red"
                   "Co-Seismic Jump (Tohoku 2011)"],
           [Effect.print "🗺️ Generating geospatial visualization...",
            Effect.saveHtml ("map_" ++ a.code ++ ".html"),
            Effect.print ("✅ Clean Political Map saved to map_" ++ a.code ++ ".html")]) := by
  exact ⟨rfl, rfl⟩

/-- C8: after a successful `load_data`, `coords["lon"]` holds exactly
`(lon_raw + 180) % 360 - 180` of the first record's raw longitude, a
value that always lies in the half-open interval `[-180, 180)`. -/
theorem longitude_normalized_in_range (r0 : Record) (rs : List Record) (a : GNSSAnalyzer) :
    ((load_data (FetchResult.ok (r0 :: rs)) a).1).coords.lookup "lon"
      = some (fixLongitude r0.lon) ∧
    fixLongitude r0.lon = ((r0.lon + 180) - 360 * ⌊(r0.lon + 180) / 360⌋) - 180 ∧
    -180 ≤ fixLongitude r0.lon ∧ fixLongitude r0.lon < 180 := by
  refine ⟨?_, rfl, (fixLongitude_bounds r0.lon).1, (fixLongitude_bounds r0.lon).2⟩
  exact lookup_dictInsert_self "lon" (fixLongitude r0.lon)
    (dictInsert "lat" r0.lat a.coords)

/-- C9: with an empty `coords` mapping, `generate_displacement_map`
returns right after its guard: no `coords` key is read (so no `KeyError`
is reachable) and no map is built or saved. -/
theorem displacement_map_early_return_on_empty_coords (a : GNSSAnalyzer) :
    generate_displacement_map { a with coords := [] }
      = Except.ok (none, [Effect.print "🗺️ Generating geospatial visualization..."]) := rfl

/-- C10: whenever the USGS call does not come back as an HTTP 200 with a
well-formed body (non-200 status, malformed body, or raised exception),
`fetch_usgs_earthquakes` returns with the `earthquakes` attribute — and
in fact the whole analyzer state — exactly as it was before the call. -/
theorem fetch_error_preserves_earthquakes (a : GNSSAnalyzer) (outcome : UsgsOutcome)
    (mm rk : ℚ) (sd ed : String) (lat lon : ℚ)
    (h : successFeatures outcome = none) :
    ∃ a' tr,
      fetch_usgs_earthquakes outcome mm rk
          { a with start_date := some sd, end_date := some ed,
                   coords := [("lat", lat), ("lon", lon)] }
        = Except.ok (a', tr) ∧
      a' = { a with start_date := some sd, end_date := some ed,
                    coords := [("lat", lat), ("lon", lon)] } ∧
      a'.earthquakes = a.earthquakes := by
  set A : GNSSAnalyzer :=
    { a with start_date := some sd, end_date := some ed,
             coords := [("lat", lat), ("lon", lon)] } with hA
  set hdr : Effect := Effect.print ("🌍 Querying USGS API for earthquakes > M" ++
    toString mm ++ " within " ++ toString rk ++ "km...") with hhdr
  have h1 : fetch_usgs_earthquakes outcome mm rk A
      = Except.ok (usgsTryBlock outcome hdr A) := rfl
  rcases he : usgsTryBlock outcome hdr A with ⟨a', tr⟩
  have h2 : a' = A := by
    have h3 := usgsTryBlock_state outcome hdr A h
    rw [he] at h3
    exact h3
  refine ⟨a', tr, ?_, h2, ?_⟩
  · rw [h1, he]
  · rw [h2, hA]

/-- C10 witness: a concrete failed call (HTTP 503) against a loaded
analyzer leaves the earthquake list as it was. -/
theorem fetch_error_preserves_earthquakes_witness :
    successFeatures (UsgsOutcome.response 503 none) = none ∧
    (∃ a' tr,
      fetch_usgs_earthquakes (UsgsOutcome.response 503 none) 7.0 1000
          { (GNSSAnalyzer.init "J299") with
              start_date := some "2006-01-01",
              end_date := some "2012-01-01",
              coords := [("lat", 38), ("lon", 141)] }
        = Except.ok (a', tr) ∧
      a' = { (GNSSAnalyzer.init "J299") with
               start_date := some "2006-01-01",
               end_date := some "2012-01-01",
               coords := [("lat", 38), ("lon", 141)] } ∧
      a'.earthquakes = (GNSSAnalyzer.init "J299").earthquakes) :=
  ⟨rfl, fetch_error_preserves_earthquakes (GNSSAnalyzer.init "J299")
    (UsgsOutcome.response 503 none) 7.0 1000 "2006-01-01" "2012-01-01" 38 141 rfl⟩

end GNSS
